import Mathlib

/-
Verification of the grassroot market-structure / signal-generation pipeline.

Modelling conventions:
* JS numbers are embedded as exact rationals (ℚ).  All price arithmetic in the
  source is +, -, *, /, abs, min, max, so the rational embedding is exact up to
  IEEE-754 rounding, which is far below every threshold appearing in a claim.
* Candle timestamps are integers (ℤ).  Fields of records that the source fills
  from the wall clock (Date.now()) are omitted, since they carry no
  candle-derived information.
* JS `try/catch` around an opaque tail computation is embedded by passing the
  tail's outcome explicitly as an `Except String α` argument; the function
  matches on it exactly as the catch does.
* Division by zero yields 0 in ℚ (the source never divides by zero on the
  paths any claim touches).
* JS out-of-range list indexing is embedded with `List.getD`; every indexing
  site below is guarded by the same length checks as the source, so the
  default value is never consulted.
-/

/-- OHLCV candle, `src/server/services/market-data.js` shape.  The JS field
`open` is a Lean keyword, hence `open_`. -/
structure Candle where
  timestamp : ℤ
  open_ : ℚ
  high : ℚ
  low : ℚ
  close : ℚ
  volume : ℚ
deriving Repr, DecidableEq

instance : Inhabited Candle := ⟨⟨0, 0, 0, 0, 0, 0⟩⟩

/-- Trading signal object.  Union of the fields produced by the detectors in
`crt-detector.js` and `signal-generator.js`; fields a given detector does not
set keep their stated defaults (JS `undefined`). -/
structure Signal where
  symbol : String := ""
  type : String
  direction : String
  entryPrice : ℚ
  stopLoss : ℚ
  takeProfit : ℚ
  confidence : ℚ
  timeframe : String := ""
  chochPattern : String := ""
  riskReward : ℚ := 0
  marketCondition : String := ""
  consensus : Bool := false
deriving Repr, DecidableEq

namespace CRTDetector

/-- Direction of the liquidity sweep in a three-candle setup. -/
inductive SweepDir where
  | up
  | down
deriving Repr, DecidableEq

/-- Record pushed by `CRTDetector.findThreeCandleSetups`
(`crt-detector.js` lines 82-98). -/
structure Setup where
  sweepDirection : SweepDir
  crh : ℚ
  crl : ℚ
  sweepHigh : ℚ
  sweepLow : ℚ
  entryHint : ℚ
deriving Repr, DecidableEq

/-- Body of the `findThreeCandleSetups` loop at index `i`
(`crt-detector.js` lines 64-99): candle `i-2` defines the range, candle `i-1`
is the sweep, candle `i` the trigger.  `none` when the iteration pushes
nothing (out of range, invalidated, or no sweep). -/
def setupAt (data : List Candle) (i : Nat) : Option Setup :=
  if 2 ≤ i ∧ i < data.length then
    let c1 := data.getD (i - 2) default
    let c2 := data.getD (i - 1) default
    let c3 := data.getD i default
    let crh := c1.high
    let crl := c1.low
    if c2.close > crh ∨ c2.close < crl then
      none
    else if c2.high > crh ∧ c2.close < crh then
      some ⟨SweepDir.up, crh, crl, c2.high, c2.low, c3.open_⟩
    else if c2.low < crl ∧ c2.close > crl then
      some ⟨SweepDir.down, crh, crl, c2.high, c2.low, c3.open_⟩
    else
      none
  else
    none

/-- `CRTDetector.findThreeCandleSetups` (`crt-detector.js` lines 62-101):
the loop `for (i = 2; i < data.length; i++)` collecting the pushed setups. -/
def findThreeCandleSetups (data : List Candle) : List Setup :=
  ((List.range data.length).drop 2).filterMap (setupAt data)

/-- `CRTDetector.findFirstFVG` (`crt-detector.js` lines 103-120): first
fair-value gap consistent with the sweep direction, scanning candle pairs. -/
def findFirstFVG : List Candle → SweepDir → Option ℚ
  | a :: b :: rest, dir =>
    if dir = SweepDir.up ∧ b.high < a.low then some a.low
    else if dir = SweepDir.down ∧ b.low > a.high then some a.high
    else findFirstFVG (b :: rest) dir
  | _, _ => none

/-- Refined entry lookup in `detect` (`crt-detector.js` lines 31-35): the
lower-timeframe fetch sits in its own `try {} catch {}`, so a failed fetch
leaves `refinedEntry = null`; `lower = none` models that failure. -/
def refinedFor (lower : Option (List Candle)) (setup : Setup) : Option ℚ :=
  match lower with
  | none => none
  | some l => findFirstFVG l setup.sweepDirection

/-- Signal construction in `detect` (`crt-detector.js` lines 37-55), for the
chosen setup and optional refined entry.  `timeframe` is the default
`entryTimeframe` of `'5m'`. -/
def mkCRTSignal (setup : Setup) (refinedEntry : Option ℚ) : Signal :=
  let direction := if setup.sweepDirection = SweepDir.up then "SELL" else "BUY"
  let entryPrice := refinedEntry.getD setup.entryHint
  let stopLoss :=
    if setup.sweepDirection = SweepDir.up then setup.sweepHigh * 1.0005
    else setup.sweepLow * 0.9995
  let takeProfit :=
    if setup.sweepDirection = SweepDir.up then setup.crl else setup.crh
  let confidence := min 0.95 (0.65 + (if refinedEntry.isSome then 0.1 else 0))
  { type := "CRT_THREE_CANDLE"
    direction := direction
    entryPrice := entryPrice
    stopLoss := stopLoss
    takeProfit := takeProfit
    confidence := confidence
    timeframe := "5m"
    chochPattern := "crt_liquidity_sweep"
    riskReward := |takeProfit - entryPrice| / max (1 / 1000000000) |entryPrice - stopLoss|
    marketCondition := "crt" }

/-- `CRTDetector.detect` (`crt-detector.js` lines 19-60) on already-fetched
driver candles: fewer than 3 candles or no setup gives `[]`, otherwise one
signal built from the most recent setup. -/
def detect (driver : List Candle) (lower : Option (List Candle)) : List Signal :=
  if driver.length < 3 then []
  else
    match (findThreeCandleSetups driver).getLast? with
    | none => []
    | some setup => [mkCRTSignal setup (refinedFor lower setup)]

end CRTDetector

namespace SignalGenerator

/-- `SignalGenerator.getFallbackSignals` (`signal-generator.js` lines 435-449):
the single HOLD placeholder signal the generator returns on any error,
including insufficient data. -/
def getFallbackSignals (symbol timeframe : String) : List Signal :=
  [{ symbol := symbol
     timeframe := timeframe
     type := "NO_SIGNAL"
     direction := "HOLD"
     entryPrice := 0
     stopLoss := 0
     takeProfit := 0
     confidence := 0
     chochPattern := "none"
     riskReward := 0
     marketCondition := "insufficient_data" }]

/-- `SignalGenerator.generateSignals` (`signal-generator.js` lines 11-47).
The indicator / CHOCH / ML / risk pipeline that runs once the 50-candle guard
passes is opaque to the claims below and is passed in as `rest`; the
surrounding `try/catch` returns the fallback list on any thrown error, and the
guard `marketData.length < 50` throws before `rest` is reached. -/
def generateSignals (symbol timeframe : String) (marketData : List Candle)
    (rest : Except String (List Signal)) : List Signal :=
  match (if marketData.length < 50 then
          Except.error "Insufficient market data for signal generation"
        else rest) with
  | Except.ok signals => signals
  | Except.error _ => getFallbackSignals symbol timeframe

/-- `SignalGenerator.calculateConsensus` (`signal-generator.js` lines 382-398):
spread of the group's first signal with direction, confidence and the
consensus flag replaced. -/
def calculateConsensus (signals : List Signal) : Option Signal :=
  match signals with
  | [] => none
  | s0 :: _ =>
    let avgConfidence := (signals.map (·.confidence)).sum / (signals.length : ℚ)
    let buySignals := (signals.filter (·.direction = "BUY")).length
    let sellSignals := (signals.filter (·.direction = "SELL")).length
    let direction := if buySignals > sellSignals then "BUY" else "SELL"
    let confidence :=
      avgConfidence * (|(buySignals : ℚ) - (sellSignals : ℚ)| / (signals.length : ℚ))
    some { s0 with confidence := confidence, direction := direction, consensus := true }

end SignalGenerator

namespace CHOCHDetector

/-- `marketStructure` sub-object of a CHOCH analysis
(`backtester.js` second document, lines 321-342 and the fallback at 700-706).
`breakOfStructure`/`changeOfCharacter` levels are omitted here because the
claims only touch the fallback shape. -/
structure MarketStructureA where
  trend : String
  higherHighs : Nat
  lowerLows : Nat
  bosBullish : Bool
  bosBearish : Bool
  chochBullish : Bool
  chochBearish : Bool
deriving Repr, DecidableEq

/-- CHOCH analysis object (`backtester.js` second document, lines 294-306);
`timestamp` (wall clock) omitted, list-valued fields kept abstract as counts
are irrelevant to the claims. -/
structure Analysis where
  symbol : String
  timeframe : String
  patterns : List String
  marketStructure : MarketStructureA
  score : ℚ
deriving Repr, DecidableEq

/-- `CHOCHDetector.getFallbackAnalysis` (`backtester.js` second document,
lines 694-714): the neutral analysis returned on any error. -/
def getFallbackAnalysis (symbol timeframe : String) : Analysis :=
  { symbol := symbol
    timeframe := timeframe
    patterns := []
    marketStructure :=
      { trend := "neutral"
        higherHighs := 0
        lowerLows := 0
        bosBullish := false
        bosBearish := false
        chochBullish := false
        chochBearish := false }
    score := 0.5 }

/-- `CHOCHDetector.analyze` (`backtester.js` second document, lines 282-319).
The structure/zone pipeline past the 50-candle guard is opaque to the claims
and passed in as `rest`; the `catch` returns the fallback analysis, and
`marketData.length < 50` throws `'Insufficient market data'` first. -/
def analyze (symbol timeframe : String) (marketData : List Candle)
    (rest : Except String Analysis) : Analysis :=
  match (if marketData.length < 50 then
          Except.error "Insufficient market data for CHOCH analysis"
        else rest) with
  | Except.ok a => a
  | Except.error _ => getFallbackAnalysis symbol timeframe

/-- `CHOCHDetector.findSwingPoints` (`backtester.js` second document, lines
344-367) on a raw price list; the record's wall-clock `timestamp`
approximation is omitted. -/
def findSwingPoints (prices : List ℚ) (type : String) : List (Nat × ℚ) :=
  let window := 5
  ((List.range (prices.length - window)).drop window).filterMap (fun i =>
    let current := prices.getD i 0
    let leftWindow := (prices.drop (i - window)).take window
    let rightWindow := (prices.drop (i + 1)).take window
    let isSwing :=
      if type = "high" then
        leftWindow.all (· < current) ∧ rightWindow.all (· < current)
      else
        leftWindow.all (· > current) ∧ rightWindow.all (· > current)
    if isSwing then some (i, current) else none)

/-- `SMA.calculate({period, values})` of the `technicalindicators` dependency:
simple moving averages of each `period`-length window, oldest first; empty
when there are fewer than `period` values. -/
def smaCalculate (period : Nat) (values : List ℚ) : List ℚ :=
  if values.length < period ∨ period = 0 then []
  else (List.range (values.length - period + 1)).map (fun i =>
    (((values.drop i).take period).sum) / (period : ℚ))

/-- `CHOCHDetector.determineTrend` (`backtester.js` second document, lines
369-381): SMA(20) versus SMA(50) of the closes. -/
def determineTrend (closes : List ℚ) : String :=
  let sma20 := smaCalculate 20 closes
  let sma50 := smaCalculate 50 closes
  if sma20.length = 0 ∨ sma50.length = 0 then "neutral"
  else
    let currentSMA20 := sma20.getD (sma20.length - 1) 0
    let currentSMA50 := sma50.getD (sma50.length - 1) 0
    if currentSMA20 > currentSMA50 then "bullish"
    else if currentSMA20 < currentSMA50 then "bearish"
    else "neutral"

/-- Order-block record (`backtester.js` second document, lines 544-561);
`strength` omitted (unused by mitigation). -/
structure OrderBlock where
  type : String
  level : ℚ
  timestamp : ℤ
deriving Repr, DecidableEq

/-- `CHOCHDetector.checkMitigation` (`backtester.js` second document, lines
641-655): some candle after the block's timestamp whose wick reaches the
block level. -/
def checkMitigation (orderBlock : OrderBlock) (data : List Candle) : Bool :=
  (data.filter (fun d => d.timestamp > orderBlock.timestamp)).any (fun candle =>
    (orderBlock.type = "bullish" ∧ candle.low ≤ orderBlock.level) ∨
    (orderBlock.type = "bearish" ∧ candle.high ≥ orderBlock.level))

end CHOCHDetector

namespace Backtester

/-- Open position record built by `Backtester.enterTrade`
(`backtester.js` lines 117-135); the wall-clock `entryTime` is omitted. -/
structure Position where
  direction : String
  entryPrice : ℚ
  stopLoss : ℚ
  takeProfit : ℚ
  size : ℚ
  confidence : ℚ
  riskReward : ℚ
deriving Repr, DecidableEq

/-- Closed-trade record pushed in `Backtester.backtest`
(`backtester.js` lines 60-70 and 90-100); the wall-clock and
timestamp-difference fields (`entryTime`, `exitTime`, `duration`) are
omitted. -/
structure Trade where
  entry : ℚ
  exit : ℚ
  pnl : ℚ
  direction : String
  confidence : ℚ
  riskReward : ℚ
deriving Repr, DecidableEq

/-- Result of `Backtester.checkExitConditions` (`backtester.js` lines 143-167). -/
structure ExitResult where
  shouldExit : Bool
  reason : String
deriving Repr, DecidableEq

/-- `Backtester.calculatePositionSize` (`backtester.js` lines 137-141). -/
def calculatePositionSize (capital riskPercent entryPrice stopLoss : ℚ) : ℚ :=
  (capital * riskPercent) / |entryPrice - stopLoss|

/-- `Backtester.enterTrade` (`backtester.js` lines 117-135). -/
def enterTrade (riskPerTrade : ℚ) (signal : Signal) (currentCapital : ℚ) : Position :=
  { direction := signal.direction
    entryPrice := signal.entryPrice
    stopLoss := signal.stopLoss
    takeProfit := signal.takeProfit
    size := calculatePositionSize currentCapital riskPerTrade signal.entryPrice signal.stopLoss
    confidence := signal.confidence
    riskReward := signal.riskReward }

/-- `Backtester.checkExitConditions` (`backtester.js` lines 143-167).  The
source takes `currentCandle` as a third argument and never reads it; the
unused parameter is kept to mirror that. -/
def checkExitConditions (position : Position) (currentPrice : ℚ)
    (_currentCandle : Candle) : ExitResult :=
  if position.direction = "BUY" then
    if currentPrice ≥ position.takeProfit then ⟨true, "Take profit hit"⟩
    else if currentPrice ≤ position.stopLoss then ⟨true, "Stop loss hit"⟩
    else ⟨false, ""⟩
  else
    if currentPrice ≤ position.takeProfit then ⟨true, "Take profit hit"⟩
    else if currentPrice ≥ position.stopLoss then ⟨true, "Stop loss hit"⟩
    else ⟨false, ""⟩

/-- `Backtester.calculatePnl` (`backtester.js` lines 169-175). -/
def calculatePnl (position : Position) (exitPrice : ℚ) : ℚ :=
  if position.direction = "BUY" then
    (exitPrice - position.entryPrice) * position.size
  else
    (position.entryPrice - exitPrice) * position.size

/-- Trade record for closing `position` at `exitPrice` (time fields omitted,
see `Trade`). -/
def mkTrade (position : Position) (exitPrice : ℚ) : Trade :=
  { entry := position.entryPrice
    exit := exitPrice
    pnl := calculatePnl position exitPrice
    direction := position.direction
    confidence := position.confidence
    riskReward := position.riskReward }

/-- Mutable state of the replay loop in `Backtester.backtest`:
`capital`, `position`, `trades`, `equityCurve`. -/
structure BtState where
  capital : ℚ
  position : Option Position
  trades : List Trade
  equity : List ℚ
deriving Repr, DecidableEq

/-- One iteration of the replay loop (`backtester.js` lines 34-82) at index
`i`: the strategy sees the 30-candle lookback window `slice(i-30, i)`, a
signal may open a position when none is open, then exit conditions are
checked against the bar's closing price and the equity curve is extended. -/
def backtestStep (riskPerTrade : ℚ) (strategy : List Candle → List Signal)
    (marketData : List Candle) (s : BtState) (i : Nat) : BtState :=
  let currentData := (marketData.drop (i - 30)).take 30
  let candle := marketData.getD i default
  let currentPrice := candle.close
  let signal := (strategy currentData).head?
  let pos1 : Option Position :=
    match s.position with
    | none =>
      match signal with
      | some sig => some (enterTrade riskPerTrade sig s.capital)
      | none => none
    | some q => some q
  match pos1 with
  | some p =>
    if (checkExitConditions p currentPrice candle).shouldExit then
      let pnl := calculatePnl p currentPrice
      { capital := s.capital + pnl
        position := none
        trades := s.trades ++ [mkTrade p currentPrice]
        equity := s.equity ++ [s.capital + pnl] }
    else
      { capital := s.capital
        position := some p
        trades := s.trades
        equity := s.equity ++ [s.capital] }
  | none =>
    { capital := s.capital
      position := none
      trades := s.trades
      equity := s.equity ++ [s.capital] }

/-- The replay loop of `Backtester.backtest`
(`for (let i = 30; i < marketData.length; i++)`). -/
def backtestLoop (initialCapital riskPerTrade : ℚ)
    (strategy : List Candle → List Signal) (marketData : List Candle) : BtState :=
  ((List.range marketData.length).drop 30).foldl
    (backtestStep riskPerTrade strategy marketData)
    { capital := initialCapital, position := none, trades := [], equity := [initialCapital] }

/-- Performance-metrics record (`backtester.js` lines 177-235).  The
zero-trade branch leaves `winningTrades`/`losingTrades` undefined (`none`);
`profitFactor = none` stands for the JS `Infinity` of the no-loss case. -/
structure Metrics where
  totalTrades : Nat
  winRate : ℚ
  averageWin : ℚ
  averageLoss : ℚ
  profitFactor : Option ℚ
  maxDrawdown : ℚ
  sharpeRatio : ℚ
  winningTrades : Option Nat
  losingTrades : Option Nat
deriving Repr, DecidableEq

/-- `parseFloat(x.toFixed(2))`: round to two decimal places. -/
def round2 (q : ℚ) : ℚ := (round (q * 100) : ℤ) / 100

/-- `Backtester.calculatePerformanceMetrics` (`backtester.js` lines 177-235).
`sqrtFn` stands for the float `Math.sqrt` (irrational square roots have no
exact rational embedding); no claim depends on its values. -/
def calculatePerformanceMetrics (sqrtFn : ℚ → ℚ) (trades : List Trade)
    (equityCurve : List ℚ) : Metrics :=
  match trades with
  | [] =>
    { totalTrades := 0, winRate := 0, averageWin := 0, averageLoss := 0
      profitFactor := some 0, maxDrawdown := 0, sharpeRatio := 0
      winningTrades := none, losingTrades := none }
  | _ :: _ =>
    let winningTrades := trades.filter (fun t => t.pnl > 0)
    let losingTrades := trades.filter (fun t => t.pnl ≤ 0)
    let totalProfit := (winningTrades.map (·.pnl)).sum
    let totalLoss := |(losingTrades.map (·.pnl)).sum|
    let winRate := ((winningTrades.length : ℚ) / (trades.length : ℚ)) * 100
    let averageWin :=
      if winningTrades.length > 0 then totalProfit / (winningTrades.length : ℚ) else 0
    let averageLoss :=
      if losingTrades.length > 0 then totalLoss / (losingTrades.length : ℚ) else 0
    let profitFactor := if totalLoss > 0 then some (totalProfit / totalLoss) else none
    let dd := equityCurve.tail.foldl
      (fun (acc : ℚ × ℚ) e =>
        if e > acc.1 then (e, acc.2)
        else (acc.1, max acc.2 (((acc.1 - e) / acc.1) * 100)))
      (equityCurve.headD 0, 0)
    let maxDrawdown := dd.2
    let returns := (equityCurve.zip equityCurve.tail).map (fun ab => (ab.2 - ab.1) / ab.1)
    let avgReturn := returns.sum / (returns.length : ℚ)
    let stdDev := sqrtFn ((returns.map (fun r => (r - avgReturn) ^ 2)).sum / (returns.length : ℚ))
    let sharpeRatio := if stdDev > 0 then (avgReturn / stdDev) * sqrtFn 252 else 0
    { totalTrades := trades.length
      winRate := round2 winRate
      averageWin := round2 averageWin
      averageLoss := round2 averageLoss
      profitFactor := profitFactor.map round2
      maxDrawdown := round2 maxDrawdown
      sharpeRatio := round2 sharpeRatio
      winningTrades := some winningTrades.length
      losingTrades := some losingTrades.length }

/-- Result object of `Backtester.backtest` (`backtester.js` lines 108-114). -/
structure BtResult where
  finalCapital : ℚ
  totalReturn : ℚ
  trades : List Trade
  equityCurve : List ℚ
  metrics : Metrics
deriving Repr, DecidableEq

/-- `Backtester.backtest` (`backtester.js` lines 16-115): replay loop, then
force-close of any open position at the final bar's closing price (replacing
the last equity point), then the performance metrics. -/
def backtest (initialCapital riskPerTrade : ℚ) (sqrtFn : ℚ → ℚ)
    (strategy : List Candle → List Signal) (marketData : List Candle) : BtResult :=
  let s := backtestLoop initialCapital riskPerTrade strategy marketData
  match s.position with
  | some p =>
    let finalPrice := ((marketData.getLast?).getD default).close
    let pnl := calculatePnl p finalPrice
    let capital := s.capital + pnl
    let trades := s.trades ++ [mkTrade p finalPrice]
    let equity := s.equity.dropLast ++ [capital]
    { finalCapital := capital
      totalReturn := ((capital - initialCapital) / initialCapital) * 100
      trades := trades
      equityCurve := equity
      metrics := calculatePerformanceMetrics sqrtFn trades equity }
  | none =>
    { finalCapital := s.capital
      totalReturn := ((s.capital - initialCapital) / initialCapital) * 100
      trades := s.trades
      equityCurve := s.equity
      metrics := calculatePerformanceMetrics sqrtFn s.trades s.equity }

end Backtester

namespace BOSStrategy

/-- Swing-point record of `BOSStrategy.identifyMarketStructure`
(`smc-strategy.js` second document, lines 246-261). -/
structure SwingPoint where
  price : ℚ
  index : Nat
  timestamp : ℤ
deriving Repr, DecidableEq

instance : Inhabited SwingPoint := ⟨⟨0, 0, 0⟩⟩

/-- Return value of `BOSStrategy.identifyMarketStructure`. -/
structure MarketStructure where
  trend : String
  swingHighs : List SwingPoint
  swingLows : List SwingPoint
deriving Repr, DecidableEq

/-- `BOSStrategy.identifyMarketStructure` (`smc-strategy.js` second document,
lines 229-278): 3-candle fractal swings over the last
`structureLookback = 20` candles, then the trend from the two most recent
swing highs and lows. -/
def identifyMarketStructure (candles : List Candle) : MarketStructure :=
  if candles.length < 20 then
    { trend := "neutral", swingHighs := [], swingLows := [] }
  else
    let lookback := 20
    let swingHighs := ((List.range (lookback - 2)).drop 2).filterMap (fun i =>
      let idx := candles.length - lookback + i
      let prev := candles.getD (idx - 1) default
      let curr := candles.getD idx default
      let next := candles.getD (idx + 1) default
      if curr.high > prev.high ∧ curr.high > next.high then
        some (⟨curr.high, idx, curr.timestamp⟩ : SwingPoint)
      else none)
    let swingLows := ((List.range (lookback - 2)).drop 2).filterMap (fun i =>
      let idx := candles.length - lookback + i
      let prev := candles.getD (idx - 1) default
      let curr := candles.getD idx default
      let next := candles.getD (idx + 1) default
      if curr.low < prev.low ∧ curr.low < next.low then
        some (⟨curr.low, idx, curr.timestamp⟩ : SwingPoint)
      else none)
    let trend :=
      if swingHighs.length ≥ 2 ∧ swingLows.length ≥ 2 then
        let higherHighs := (swingHighs.getD (swingHighs.length - 1) default).price >
          (swingHighs.getD (swingHighs.length - 2) default).price
        let higherLows := (swingLows.getD (swingLows.length - 1) default).price >
          (swingLows.getD (swingLows.length - 2) default).price
        let lowerHighs := (swingHighs.getD (swingHighs.length - 1) default).price <
          (swingHighs.getD (swingHighs.length - 2) default).price
        let lowerLows := (swingLows.getD (swingLows.length - 1) default).price <
          (swingLows.getD (swingLows.length - 2) default).price
        if higherHighs ∧ higherLows then "uptrend"
        else if lowerHighs ∧ lowerLows then "downtrend"
        else if higherHighs ∧ lowerLows then "ranging"
        else "neutral"
      else "neutral"
    { trend := trend, swingHighs := swingHighs, swingLows := swingLows }

/-- Spec-side trend classifier, written from the (amended) specification
wording: compare the two most recent swing highs and the two most recent
swing lows; higher highs and higher lows give `uptrend`, lower highs and
lower lows give `downtrend`, higher highs with lower lows give `ranging`, any
other combination gives `neutral`; with fewer than 2 swings of a kind the
trend is `neutral`. -/
def trendSpec (swingHighs swingLows : List SwingPoint) : String :=
  if swingHighs.length ≥ 2 ∧ swingLows.length ≥ 2 then
    let hLast := (swingHighs.getD (swingHighs.length - 1) default).price
    let hPrev := (swingHighs.getD (swingHighs.length - 2) default).price
    let lLast := (swingLows.getD (swingLows.length - 1) default).price
    let lPrev := (swingLows.getD (swingLows.length - 2) default).price
    if hLast > hPrev ∧ lLast > lPrev then "uptrend"
    else if hLast < hPrev ∧ lLast < lPrev then "downtrend"
    else if hLast > hPrev ∧ lLast < lPrev then "ranging"
    else "neutral"
  else "neutral"

end BOSStrategy

section Examples

/-- A concrete BUY signal used as sample input for witnesses. -/
def exBuySignal : Signal :=
  { type := "RSI_OVERSOLD", direction := "BUY", entryPrice := 100, stopLoss := 98
    takeProfit := 103, confidence := 0.7, timeframe := "current"
    chochPattern := "oversold_bounce", riskReward := 1.5, marketCondition := "oversold" }

/-- A concrete SELL signal used as sample input for witnesses. -/
def exSellSignal : Signal :=
  { type := "RSI_OVERSOLD", direction := "SELL", entryPrice := 101, stopLoss := 103
    takeProfit := 99, confidence := 0.9, timeframe := "current"
    chochPattern := "overbought_reversal", riskReward := 1.5, marketCondition := "overbought" }

/-- The spec's worked CRT example: range candle `[1.0950, 1.0975]`, sweep
candle high `1.0980` closing at `1.0968`, and a trigger candle opening at
`1.0966`. -/
def exC4Driver : List Candle :=
  [⟨0, 1.0960, 1.0975, 1.0950, 1.0970, 0⟩,
   ⟨1, 1.0970, 1.0980, 1.0955, 1.0968, 0⟩,
   ⟨2, 1.0966, 1.0972, 1.0960, 1.0965, 0⟩]

/-- The setup recorded for `exC4Driver`. -/
def exC4Setup : CRTDetector.Setup :=
  ⟨CRTDetector.SweepDir.up, 1.0975, 1.0950, 1.0980, 1.0955, 1.0966⟩

/-- A candle whose only interesting fields are a high, a low and a
timestamp. -/
def mkHLCandle (h l : ℚ) (t : ℤ) : Candle := ⟨t, 0, h, l, 0, 0⟩

/-- 20 candles whose swing highs are 10 then 11 (higher highs) and whose
swing lows are 2 then 3 (higher lows). -/
def exUpC2 : List Candle :=
  (List.range 20).map (fun j =>
    mkHLCandle (if j = 5 then 10 else if j = 12 then 11 else 5)
      (if j = 7 then 2 else if j = 14 then 3 else 4) j)

/-- 20 candles whose swing highs are 10 then 11 (higher highs) and whose
swing lows are 3 then 2 (lower lows). -/
def exRangeC2 : List Candle :=
  (List.range 20).map (fun j =>
    mkHLCandle (if j = 5 then 10 else if j = 12 then 11 else 5)
      (if j = 7 then 3 else if j = 14 then 2 else 4) j)

/-- 50 flat-then-step closes: no swing point of either kind, but a rising
SMA(20) against SMA(50). -/
def exC2Closes : List ℚ := List.replicate 30 0 ++ List.replicate 20 1

/-- BUY signal with entry 100, stop 90, target 110. -/
def exC7Signal : Signal :=
  { type := "TEST", direction := "BUY", entryPrice := 100, stopLoss := 90
    takeProfit := 110, confidence := 0.7, timeframe := "1m", riskReward := 2 }

/-- 33 flat candles at 100, except bar 31 whose high spikes to 120 (above the
target 110) while its close stays at 105 (below the target). -/
def exC7Data : List Candle :=
  (List.range 33).map (fun (j : ℕ) =>
    if j = 31 then ⟨(j : ℤ), 100, 120, 99, 105, 0⟩
    else ⟨(j : ℤ), 100, 100, 100, 100, 0⟩)

/-- Strategy that always proposes `exC7Signal`. -/
def exC7Strategy : List Candle → List Signal := fun _ => [exC7Signal]

/-- The position opened from `exC7Signal` with capital 10000 and 1% risk:
size = 10000 × 0.01 / |100 − 90| = 10. -/
def exC7Position : Backtester.Position :=
  { direction := "BUY", entryPrice := 100, stopLoss := 90, takeProfit := 110
    size := 10, confidence := 0.7, riskReward := 2 }

/-- 31 flat candles at 100: the replay loop runs exactly one iteration, so a
position entered on bar 30 is still open when the loop ends. -/
def exC7DataShort : List Candle :=
  (List.range 31).map (fun (j : ℕ) => ⟨(j : ℤ), 100, 100, 100, 100, 0⟩)

end Examples

/-- C9: zone mitigation is monotonic in the candle sequence — if
`checkMitigation` holds of an order block on a candle list, it still holds on
every extension of that list by further candles; once mitigated, no further
candle can make the zone unmitigated again. -/
theorem c9_mitigation_monotonic (ob : CHOCHDetector.OrderBlock)
    (data ext : List Candle) (h : CHOCHDetector.checkMitigation ob data = true) :
    CHOCHDetector.checkMitigation ob (data ++ ext) = true := by
  simp only [CHOCHDetector.checkMitigation] at h ⊢
  rw [List.filter_append, List.any_append, h, Bool.true_or]

/-- Witness for C9 at a concrete bullish order block: mitigated by a single
later candle, and still mitigated after appending one more candle. -/
theorem c9_mitigation_monotonic_witness :
    CHOCHDetector.checkMitigation ⟨"bullish", 10, 0⟩ [⟨1, 12, 13, 9, 12, 0⟩] = true ∧
    CHOCHDetector.checkMitigation ⟨"bullish", 10, 0⟩
      ([⟨1, 12, 13, 9, 12, 0⟩] ++ [⟨2, 12, 14, 11, 13, 0⟩]) = true :=
  ⟨by decide, c9_mitigation_monotonic ⟨"bullish", 10, 0⟩ [⟨1, 12, 13, 9, 12, 0⟩]
      [⟨2, 12, 14, 11, 13, 0⟩] (by decide)⟩

/-- C5: for every non-empty signal group, the consensus confidence equals
(mean of member confidences) × (|BUY count − SELL count| / group size); a
group with equal BUY and SELL counts gets confidence exactly 0, and a group
unanimous in one direction gets exactly the unweighted mean of its members'
confidences. -/
theorem c5_consensus_confidence_formula (signals : List Signal)
    (hne : signals ≠ []) :
    ∃ c, SignalGenerator.calculateConsensus signals = some c ∧
      c.confidence = ((signals.map (·.confidence)).sum / (signals.length : ℚ)) *
        (|((signals.filter (·.direction = "BUY")).length : ℚ) -
          ((signals.filter (·.direction = "SELL")).length : ℚ)| / (signals.length : ℚ)) ∧
      ((signals.filter (·.direction = "BUY")).length =
          (signals.filter (·.direction = "SELL")).length → c.confidence = 0) ∧
      (((∀ s ∈ signals, s.direction = "BUY") ∨ (∀ s ∈ signals, s.direction = "SELL")) →
        c.confidence = (signals.map (·.confidence)).sum / (signals.length : ℚ)) := by
  match signals, hne with
  | s0 :: rest, _ =>
    refine ⟨_, rfl, rfl, ?_, ?_⟩
    · intro heq
      simp only [SignalGenerator.calculateConsensus]
      rw [heq]
      simp
    · have hlen : (((s0 :: rest).length : ℚ)) ≠ 0 :=
        Nat.cast_ne_zero.mpr (by simp)
      intro hall
      simp only [SignalGenerator.calculateConsensus]
      rcases hall with hb | hs
      · have h1 : (s0 :: rest).filter (·.direction = "BUY") = s0 :: rest :=
          List.filter_eq_self.mpr (fun a ha => by simp [hb a ha])
        have h2 : (s0 :: rest).filter (·.direction = "SELL") = [] :=
          List.filter_eq_nil_iff.mpr (fun a ha => by simp [hb a ha])
        rw [h1, h2]
        simp only [List.length_nil, Nat.cast_zero, sub_zero]
        rw [abs_of_nonneg (by positivity), div_self hlen, mul_one]
      · have h1 : (s0 :: rest).filter (·.direction = "BUY") = [] :=
          List.filter_eq_nil_iff.mpr (fun a ha => by simp [hs a ha])
        have h2 : (s0 :: rest).filter (·.direction = "SELL") = s0 :: rest :=
          List.filter_eq_self.mpr (fun a ha => by simp [hs a ha])
        rw [h1, h2]
        simp only [List.length_nil, Nat.cast_zero, zero_sub, abs_neg]
        rw [abs_of_nonneg (by positivity), div_self hlen, mul_one]

/-- Witness for C5 on the two-element group [BUY 0.7, SELL 0.9]: equal counts
collapse the consensus confidence to 0. -/
theorem c5_consensus_confidence_formula_witness :
    ∃ c, SignalGenerator.calculateConsensus [exBuySignal, exSellSignal] = some c ∧
      c.confidence = (((([exBuySignal, exSellSignal] : List Signal).map (·.confidence)).sum / 2) *
        (|((([exBuySignal, exSellSignal] : List Signal).filter (·.direction = "BUY")).length : ℚ) -
          ((([exBuySignal, exSellSignal] : List Signal).filter (·.direction = "SELL")).length : ℚ)| / 2)) ∧
      c.confidence = 0 := by
  obtain ⟨c, hc, hf, heq, -⟩ :=
    c5_consensus_confidence_formula [exBuySignal, exSellSignal] (by decide)
  exact ⟨c, hc, by exact_mod_cast hf, heq (by decide)⟩

/-- C10: for every non-empty group, the consensus object is the group's first
signal with only direction, confidence and the consensus flag replaced — all
other fields are copied from the first member — and an exact BUY/SELL tie
yields direction SELL. -/
theorem c10_consensus_frame (signals : List Signal) (s0 : Signal)
    (rest : List Signal) (hcons : signals = s0 :: rest) :
    ∃ c, SignalGenerator.calculateConsensus signals = some c ∧
      c.symbol = s0.symbol ∧ c.type = s0.type ∧ c.entryPrice = s0.entryPrice ∧
      c.stopLoss = s0.stopLoss ∧ c.takeProfit = s0.takeProfit ∧
      c.timeframe = s0.timeframe ∧ c.chochPattern = s0.chochPattern ∧
      c.riskReward = s0.riskReward ∧ c.marketCondition = s0.marketCondition ∧
      c.consensus = true ∧
      c.direction = (if (signals.filter (·.direction = "BUY")).length >
          (signals.filter (·.direction = "SELL")).length then "BUY" else "SELL") ∧
      ((signals.filter (·.direction = "BUY")).length =
          (signals.filter (·.direction = "SELL")).length → c.direction = "SELL") := by
  subst hcons
  refine ⟨_, rfl, rfl, rfl, rfl, rfl, rfl, rfl, rfl, rfl, rfl, rfl, rfl, ?_⟩
  intro heq
  simp only [SignalGenerator.calculateConsensus]
  rw [heq]
  simp

/-- C3: whenever the sweep candle of a triple closes outside the first
candle's [low, high] range, that triple records no setup, every recorded
setup comes from a different triple, and every signal `detect` emits derives
from a setup of a different triple — invalidation is absolute. -/
theorem c3_invalid_sweep_no_signal (data : List Candle) (i : Nat)
    (lower : Option (List Candle)) (h2 : 2 ≤ i) (hlt : i < data.length)
    (hinv : (data.getD (i - 1) default).close > (data.getD (i - 2) default).high ∨
      (data.getD (i - 1) default).close < (data.getD (i - 2) default).low) :
    CRTDetector.setupAt data i = none ∧
    (∀ s ∈ CRTDetector.findThreeCandleSetups data,
      ∃ j, j ≠ i ∧ CRTDetector.setupAt data j = some s) ∧
    (∀ sig ∈ CRTDetector.detect data lower, ∃ j s, j ≠ i ∧
      CRTDetector.setupAt data j = some s ∧
      sig = CRTDetector.mkCRTSignal s (CRTDetector.refinedFor lower s)) := by
  have hnone : CRTDetector.setupAt data i = none := by
    unfold CRTDetector.setupAt
    rw [if_pos ⟨h2, hlt⟩]
    dsimp only
    rw [if_pos hinv]
  refine ⟨hnone, ?_, ?_⟩
  · intro s hs
    obtain ⟨j, hj, hsj⟩ := List.mem_filterMap.mp hs
    refine ⟨j, ?_, hsj⟩
    intro hji
    rw [hji, hnone] at hsj
    exact Option.noConfusion hsj
  · intro sig hsig
    unfold CRTDetector.detect at hsig
    split_ifs at hsig with hlen
    · simp at hsig
    · cases hsetups : (CRTDetector.findThreeCandleSetups data).getLast? with
      | none => rw [hsetups] at hsig; simp at hsig
      | some setup =>
        rw [hsetups] at hsig
        simp only [List.mem_singleton] at hsig
        have hmem : setup ∈ CRTDetector.findThreeCandleSetups data :=
          List.mem_of_mem_getLast? (by rw [hsetups]; rfl)
        obtain ⟨j, hj, hsj⟩ := List.mem_filterMap.mp hmem
        refine ⟨j, setup, ?_, hsj, hsig⟩
        intro hji
        rw [hji, hnone] at hsj
        exact Option.noConfusion hsj

/-- Witness for C3: a concrete triple whose sweep candle closes above the
range high records no setup and `detect` emits nothing from it. -/
theorem c3_invalid_sweep_no_signal_witness :
    CRTDetector.setupAt [⟨0, 1, 10, 5, 8, 0⟩, ⟨1, 8, 11, 6, 12, 0⟩, ⟨2, 9, 10, 6, 8, 0⟩] 2 = none := by
  obtain ⟨h, -, -⟩ := c3_invalid_sweep_no_signal
    [⟨0, 1, 10, 5, 8, 0⟩, ⟨1, 8, 11, 6, 12, 0⟩, ⟨2, 9, 10, 6, 8, 0⟩] 2 none
    (by decide) (by decide) (by decide)
  exact h

/-- Counterexample for C4: at the spec's own example, the emitted signal's
stop loss is `1.0980 × 1.0005 = 1.098549`, not the claimed `1.09805` (the
direction SELL and take profit `1.0950` do hold). -/
theorem c4_stoploss_value_counterexample :
    (CRTDetector.detect exC4Driver none).map (fun s => s.stopLoss) = [1.098549] ∧
    (1.098549 : ℚ) ≠ 1.09805 ∧
    (CRTDetector.detect exC4Driver none).map (fun s => s.direction) = ["SELL"] ∧
    (CRTDetector.detect exC4Driver none).map (fun s => s.takeProfit) = [1.0950] := by
  norm_num [CRTDetector.detect, CRTDetector.findThreeCandleSetups, CRTDetector.setupAt,
    CRTDetector.mkCRTSignal, CRTDetector.refinedFor, exC4Driver, List.filterMap]

/-- C4 (amended): for every detected sweep-up setup, the emitted signal has
direction SELL, stop loss equal to the sweep candle's high times 1.0005, and
take profit equal to the range low; at the spec's example this gives SELL,
stop loss 1.098549, take profit 1.0950. -/
theorem c4_sweep_up_sell_levels (driver : List Candle)
    (lower : Option (List Candle)) (setup : CRTDetector.Setup)
    (hlast : (CRTDetector.findThreeCandleSetups driver).getLast? = some setup)
    (hup : setup.sweepDirection = CRTDetector.SweepDir.up) :
    CRTDetector.detect driver lower =
      [CRTDetector.mkCRTSignal setup (CRTDetector.refinedFor lower setup)] ∧
    (CRTDetector.mkCRTSignal setup (CRTDetector.refinedFor lower setup)).direction = "SELL" ∧
    (CRTDetector.mkCRTSignal setup (CRTDetector.refinedFor lower setup)).stopLoss =
      setup.sweepHigh * 1.0005 ∧
    (CRTDetector.mkCRTSignal setup (CRTDetector.refinedFor lower setup)).takeProfit =
      setup.crl := by
  have hmem : setup ∈ CRTDetector.findThreeCandleSetups driver :=
    List.mem_of_mem_getLast? (by rw [hlast]; rfl)
  obtain ⟨j, hj, hsj⟩ := List.mem_filterMap.mp hmem
  have hguard : 2 ≤ j ∧ j < driver.length := by
    by_contra hg
    unfold CRTDetector.setupAt at hsj
    rw [if_neg hg] at hsj
    exact Option.noConfusion hsj
  have hlen : ¬ driver.length < 3 := by omega
  refine ⟨?_, ?_, ?_, ?_⟩
  · unfold CRTDetector.detect
    rw [if_neg hlen, hlast]
  · simp [CRTDetector.mkCRTSignal, hup]
  · simp [CRTDetector.mkCRTSignal, hup]
  · simp [CRTDetector.mkCRTSignal, hup]

/-- Witness for C4 at the spec's example driver: one SELL signal with stop
loss `1.098549` and take profit `1.0950`. -/
theorem c4_sweep_up_sell_levels_witness :
    CRTDetector.detect exC4Driver none =
      [CRTDetector.mkCRTSignal exC4Setup (CRTDetector.refinedFor none exC4Setup)] ∧
    (CRTDetector.mkCRTSignal exC4Setup (CRTDetector.refinedFor none exC4Setup)).direction = "SELL" ∧
    (CRTDetector.mkCRTSignal exC4Setup (CRTDetector.refinedFor none exC4Setup)).stopLoss =
      exC4Setup.sweepHigh * 1.0005 ∧
    (CRTDetector.mkCRTSignal exC4Setup (CRTDetector.refinedFor none exC4Setup)).takeProfit =
      exC4Setup.crl :=
  c4_sweep_up_sell_levels exC4Driver none exC4Setup
    (by norm_num [CRTDetector.findThreeCandleSetups, CRTDetector.setupAt, exC4Driver,
      exC4Setup, List.filterMap]) rfl

/-- Counterexample for C1: with fewer than 50 candles,
`SignalGenerator.generateSignals` does not return an empty signal list — it
returns the one-element fallback list holding a HOLD placeholder signal. -/
theorem c1_fallback_not_empty_counterexample :
    SignalGenerator.generateSignals "EURUSD" "1m" [] (Except.ok []) =
      SignalGenerator.getFallbackSignals "EURUSD" "1m" ∧
    SignalGenerator.getFallbackSignals "EURUSD" "1m" ≠ [] ∧
    (SignalGenerator.getFallbackSignals "EURUSD" "1m").length = 1 ∧
    (SignalGenerator.getFallbackSignals "EURUSD" "1m").map (fun s => s.direction) =
      ["HOLD"] := by
  refine ⟨rfl, ?_, rfl, rfl⟩
  decide

/-- C1 (amended): on candle sequences shorter than the detector's minimum,
and whatever the rest of each pipeline would have produced,
`SignalGenerator.generateSignals` returns its one-element neutral HOLD
fallback list, `CHOCHDetector.analyze` returns the neutral fallback analysis,
and `CRTDetector.detect` returns the empty list — never an exception. -/
theorem c1_short_input_fallback (symbol timeframe : String)
    (marketData : List Candle) (restS : Except String (List Signal))
    (restA : Except String CHOCHDetector.Analysis) (driver : List Candle)
    (lower : Option (List Candle)) (h50 : marketData.length < 50)
    (h3 : driver.length < 3) :
    SignalGenerator.generateSignals symbol timeframe marketData restS =
      SignalGenerator.getFallbackSignals symbol timeframe ∧
    CHOCHDetector.analyze symbol timeframe marketData restA =
      CHOCHDetector.getFallbackAnalysis symbol timeframe ∧
    CRTDetector.detect driver lower = [] := by
  refine ⟨?_, ?_, ?_⟩
  · simp [SignalGenerator.generateSignals, h50]
  · simp [CHOCHDetector.analyze, h50]
  · simp [CRTDetector.detect, h3]

/-- Witness for C1: empty candle lists, with the opaque pipeline tails set to
a success on one side and a failure on the other. -/
theorem c1_short_input_fallback_witness :
    SignalGenerator.generateSignals "EURUSD" "1m" [] (Except.ok [exBuySignal]) =
      SignalGenerator.getFallbackSignals "EURUSD" "1m" ∧
    CHOCHDetector.analyze "EURUSD" "1m" [] (Except.error "boom") =
      CHOCHDetector.getFallbackAnalysis "EURUSD" "1m" ∧
    CRTDetector.detect [] none = [] :=
  c1_short_input_fallback "EURUSD" "1m" [] (Except.ok [exBuySignal])
    (Except.error "boom") [] none (by decide) (by decide)

/-- Witness for C10 on a group whose first member is a BUY signal but whose
majority is SELL: the consensus keeps the first member's entry/stop/target
and type while taking direction SELL. -/
theorem c10_consensus_frame_witness :
    ∃ c, SignalGenerator.calculateConsensus [exBuySignal, exSellSignal, exSellSignal] = some c ∧
      c.entryPrice = exBuySignal.entryPrice ∧ c.stopLoss = exBuySignal.stopLoss ∧
      c.takeProfit = exBuySignal.takeProfit ∧ c.type = exBuySignal.type ∧
      c.direction = "SELL" ∧ c.consensus = true := by
  obtain ⟨c, hc, -, hty, hep, hsl, htp, -, -, -, -, hflag, hdir, -⟩ :=
    c10_consensus_frame [exBuySignal, exSellSignal, exSellSignal] exBuySignal
      [exSellSignal, exSellSignal] rfl
  refine ⟨c, hc, hep, hsl, htp, hty, ?_, hflag⟩
  rw [hdir]
  decide

/-- Counterexample for C2: with higher highs and higher lows,
`BOSStrategy.identifyMarketStructure` labels the trend `"uptrend"`, not
`"bullish"`; with higher highs and lower lows it labels it `"ranging"`, not
`"neutral"`; and `CHOCHDetector.determineTrend` classifies by SMA(20) versus
SMA(50), returning `"bullish"` on a close sequence that has no swing points
at all (where a swing comparison would give `"neutral"`). -/
theorem c2_trend_labels_counterexample :
    (BOSStrategy.identifyMarketStructure exUpC2).trend = "uptrend" ∧
    (BOSStrategy.identifyMarketStructure exUpC2).swingHighs.map (fun p => p.price) = [10, 11] ∧
    (BOSStrategy.identifyMarketStructure exUpC2).swingLows.map (fun p => p.price) = [2, 3] ∧
    ("uptrend" : String) ≠ "bullish" ∧
    (BOSStrategy.identifyMarketStructure exRangeC2).trend = "ranging" ∧
    (BOSStrategy.identifyMarketStructure exRangeC2).swingHighs.map (fun p => p.price) = [10, 11] ∧
    (BOSStrategy.identifyMarketStructure exRangeC2).swingLows.map (fun p => p.price) = [3, 2] ∧
    ("ranging" : String) ≠ "neutral" ∧
    CHOCHDetector.determineTrend exC2Closes = "bullish" ∧
    CHOCHDetector.findSwingPoints exC2Closes "high" = [] ∧
    CHOCHDetector.findSwingPoints exC2Closes "low" = [] := by
  refine ⟨by decide, by decide, by decide, by decide, by decide, by decide, by decide,
    by decide, ?_, by decide, by decide⟩
  norm_num [CHOCHDetector.determineTrend, CHOCHDetector.smaCalculate, exC2Closes,
    List.range_succ, List.getElem_append_left, List.getElem_append_right,
    List.getElem_replicate]

/-- C2 (amended): `BOSStrategy.identifyMarketStructure` classifies the trend
exactly by comparing the two most recent swing highs and the two most recent
swing lows it extracted — higher highs and higher lows give `"uptrend"`,
lower highs and lower lows give `"downtrend"`, higher highs with lower lows
give `"ranging"`, any other combination (or fewer than 2 swings of a kind)
gives `"neutral"`. -/
theorem c2_trend_classification (candles : List Candle) :
    (BOSStrategy.identifyMarketStructure candles).trend =
      BOSStrategy.trendSpec (BOSStrategy.identifyMarketStructure candles).swingHighs
        (BOSStrategy.identifyMarketStructure candles).swingLows := by
  unfold BOSStrategy.identifyMarketStructure
  split_ifs with h
  · rfl
  · rfl

/-- C8: at most one position is open at any time during a backtest — while a
position `p` is open, a replay step either keeps exactly `p` open untouched
or closes `p`; it never opens a new position from an incoming signal until
the current one has been closed. -/
theorem c8_single_position_invariant (risk : ℚ)
    (strategy : List Candle → List Signal) (marketData : List Candle)
    (s : Backtester.BtState) (i : Nat) (p : Backtester.Position)
    (hopen : s.position = some p) :
    ((Backtester.backtestStep risk strategy marketData s i).position = some p ∧
      (Backtester.backtestStep risk strategy marketData s i).trades = s.trades ∧
      (Backtester.backtestStep risk strategy marketData s i).capital = s.capital) ∨
    ((Backtester.backtestStep risk strategy marketData s i).position = none ∧
      (Backtester.backtestStep risk strategy marketData s i).trades =
        s.trades ++ [Backtester.mkTrade p (marketData.getD i default).close] ∧
      (Backtester.backtestStep risk strategy marketData s i).capital =
        s.capital + Backtester.calculatePnl p (marketData.getD i default).close) := by
  unfold Backtester.backtestStep
  rw [hopen]
  dsimp only
  split_ifs with hexit
  · exact Or.inr ⟨rfl, rfl, rfl⟩
  · exact Or.inl ⟨rfl, rfl, rfl⟩

/-- Witness for C8: with a position open and a fresh BUY signal arriving on a
bar that does not hit stop or target, the step keeps exactly the old position
and ignores the signal. -/
theorem c8_single_position_invariant_witness :
    ((Backtester.backtestStep 0.01 exC7Strategy exC7Data
        ⟨10000, some exC7Position, [], [10000]⟩ 31).position = some exC7Position ∧
      (Backtester.backtestStep 0.01 exC7Strategy exC7Data
        ⟨10000, some exC7Position, [], [10000]⟩ 31).trades = [] ∧
      (Backtester.backtestStep 0.01 exC7Strategy exC7Data
        ⟨10000, some exC7Position, [], [10000]⟩ 31).capital = 10000) ∨
    ((Backtester.backtestStep 0.01 exC7Strategy exC7Data
        ⟨10000, some exC7Position, [], [10000]⟩ 31).position = none ∧
      (Backtester.backtestStep 0.01 exC7Strategy exC7Data
        ⟨10000, some exC7Position, [], [10000]⟩ 31).trades =
        [] ++ [Backtester.mkTrade exC7Position (exC7Data.getD 31 default).close] ∧
      (Backtester.backtestStep 0.01 exC7Strategy exC7Data
        ⟨10000, some exC7Position, [], [10000]⟩ 31).capital =
        10000 + Backtester.calculatePnl exC7Position (exC7Data.getD 31 default).close) :=
  c8_single_position_invariant 0.01 exC7Strategy exC7Data
    ⟨10000, some exC7Position, [], [10000]⟩ 31 exC7Position rfl

/-- C6: a backtest whose strategy never produces a signal returns no trades,
a final capital equal to the initial capital, and the all-zero metrics record
(win rate, average win/loss, profit factor, max drawdown, Sharpe all 0) —
every metric defined, no error. -/
theorem c6_zero_signal_backtest (init risk : ℚ) (sqrtFn : ℚ → ℚ)
    (strategy : List Candle → List Signal) (marketData : List Candle)
    (hz : ∀ w, strategy w = []) :
    (Backtester.backtest init risk sqrtFn strategy marketData).trades = [] ∧
    (Backtester.backtest init risk sqrtFn strategy marketData).finalCapital = init ∧
    (Backtester.backtest init risk sqrtFn strategy marketData).metrics =
      { totalTrades := 0, winRate := 0, averageWin := 0, averageLoss := 0
        profitFactor := some 0, maxDrawdown := 0, sharpeRatio := 0
        winningTrades := none, losingTrades := none } := by
  have key : ∀ (idxs : List Nat) (s : Backtester.BtState), s.position = none →
      (idxs.foldl (Backtester.backtestStep risk strategy marketData) s).position = none ∧
      (idxs.foldl (Backtester.backtestStep risk strategy marketData) s).trades = s.trades ∧
      (idxs.foldl (Backtester.backtestStep risk strategy marketData) s).capital = s.capital := by
    intro idxs
    induction idxs with
    | nil => exact fun s h => ⟨h, rfl, rfl⟩
    | cons i rest ih =>
      intro s h
      have hstep : Backtester.backtestStep risk strategy marketData s i =
          { capital := s.capital, position := none, trades := s.trades
            equity := s.equity ++ [s.capital] } := by
        unfold Backtester.backtestStep
        rw [h]
        dsimp only
        rw [hz]
        rfl
      rw [List.foldl_cons]
      obtain ⟨h1, h2, h3⟩ := ih (Backtester.backtestStep risk strategy marketData s i)
        (by rw [hstep])
      exact ⟨h1, by rw [h2, hstep], by rw [h3, hstep]⟩
  obtain ⟨hp, ht, hc⟩ := key ((List.range marketData.length).drop 30)
    ⟨init, none, [], [init]⟩ rfl
  unfold Backtester.backtest Backtester.backtestLoop
  dsimp only
  rw [hp]
  refine ⟨ht, hc, ?_⟩
  rw [ht]
  rfl

/-- Witness for C6: the constantly-empty strategy on an empty candle list
with capital 10000. -/
theorem c6_zero_signal_backtest_witness :
    (Backtester.backtest 10000 0.01 id (fun _ => []) []).trades = [] ∧
    (Backtester.backtest 10000 0.01 id (fun _ => []) []).finalCapital = 10000 ∧
    (Backtester.backtest 10000 0.01 id (fun _ => []) []).metrics =
      { totalTrades := 0, winRate := 0, averageWin := 0, averageLoss := 0
        profitFactor := some 0, maxDrawdown := 0, sharpeRatio := 0
        winningTrades := none, losingTrades := none } :=
  c6_zero_signal_backtest 10000 0.01 id (fun _ => []) [] (fun _ => rfl)

/-- Counterexample for C7: in a concrete replay, bar 31's high (120) crosses
the open BUY position's target (110), yet the position is still open after
that bar — `checkExitConditions` compares only the bar's closing price (105)
— and the whole backtest closes the trade only by the final force-close at
the last bar's close (100). -/
theorem c7_intrabar_high_counterexample :
    (((List.range 32).drop 30).foldl
        (Backtester.backtestStep 0.01 exC7Strategy exC7Data)
        ⟨10000, none, [], [10000]⟩).position = some exC7Position ∧
    (exC7Data.getD 31 default).high = 120 ∧
    exC7Position.takeProfit = 110 ∧ (110 : ℚ) ≤ 120 ∧
    (exC7Data.getD 31 default).close = 105 ∧
    (Backtester.backtest 10000 0.01 id exC7Strategy exC7Data).trades =
      [Backtester.mkTrade exC7Position 100] := by
  have h30 : exC7Data.getD 30 default = ⟨30, 100, 100, 100, 100, 0⟩ := by
    simp only [exC7Data, List.getD_eq_getElem?_getD, List.getElem?_map, List.getElem?_range]
    norm_num
  have h31 : exC7Data.getD 31 default = ⟨31, 100, 120, 99, 105, 0⟩ := by
    simp only [exC7Data, List.getD_eq_getElem?_getD, List.getElem?_map, List.getElem?_range]
    norm_num
  have h32 : exC7Data.getD 32 default = ⟨32, 100, 100, 100, 100, 0⟩ := by
    simp only [exC7Data, List.getD_eq_getElem?_getD, List.getElem?_map, List.getElem?_range]
    norm_num
  have hrange : (List.range 32).drop 30 = [30, 31] := by decide
  have hstep30 : Backtester.backtestStep 0.01 exC7Strategy exC7Data
      ⟨10000, none, [], [10000]⟩ 30 =
      ⟨10000, some exC7Position, [], [10000, 10000]⟩ := by
    unfold Backtester.backtestStep
    rw [h30]
    norm_num [exC7Strategy, Backtester.enterTrade, Backtester.calculatePositionSize,
      Backtester.checkExitConditions, exC7Signal, exC7Position]
  have hstep31 : Backtester.backtestStep 0.01 exC7Strategy exC7Data
      ⟨10000, some exC7Position, [], [10000, 10000]⟩ 31 =
      ⟨10000, some exC7Position, [], [10000, 10000, 10000]⟩ := by
    unfold Backtester.backtestStep
    rw [h31]
    norm_num [exC7Strategy, Backtester.checkExitConditions, exC7Position]
  have hstep32 : Backtester.backtestStep 0.01 exC7Strategy exC7Data
      ⟨10000, some exC7Position, [], [10000, 10000, 10000]⟩ 32 =
      ⟨10000, some exC7Position, [], [10000, 10000, 10000, 10000]⟩ := by
    unfold Backtester.backtestStep
    rw [h32]
    norm_num [exC7Strategy, Backtester.checkExitConditions, exC7Position]
  have hloop : Backtester.backtestLoop 10000 0.01 exC7Strategy exC7Data =
      ⟨10000, some exC7Position, [], [10000, 10000, 10000, 10000]⟩ := by
    unfold Backtester.backtestLoop
    have hr : (List.range exC7Data.length).drop 30 = [30, 31, 32] := by decide
    rw [hr]
    simp only [List.foldl_cons, List.foldl_nil, hstep30, hstep31, hstep32]
  have hlast : (exC7Data.getLast?.getD default).close = 100 := by
    simp only [exC7Data, List.getLast?_eq_getElem?, List.getElem?_map, List.getElem?_range,
      List.length_map, List.length_range]
    norm_num
  refine ⟨?_, by rw [h31], by norm_num [exC7Position], by norm_num, by rw [h31], ?_⟩
  · rw [hrange]
    simp only [List.foldl_cons, List.foldl_nil, hstep30, hstep31]
  · unfold Backtester.backtest
    rw [hloop]
    dsimp only
    rw [hlast]
    norm_num [Backtester.mkTrade, Backtester.calculatePnl, exC7Position]

/-- C7 (amended): during backtest replay, exit is decided by the bar's
closing price, not its high/low — `checkExitConditions` fires exactly when
the closing price crosses the target or the stop (direction-aware), in which
case that bar's step closes the open position at the closing price,
realizing the PnL and appending the trade; otherwise the position stays open
unchanged; and any position still open after the final bar is force-closed
at the final bar's closing price. -/
theorem c7_close_based_exit :
    (∀ (p : Backtester.Position) (price : ℚ) (c : Candle),
      (Backtester.checkExitConditions p price c).shouldExit = true ↔
        ((p.direction = "BUY" ∧ (p.takeProfit ≤ price ∨ price ≤ p.stopLoss)) ∨
         (¬ p.direction = "BUY" ∧ (price ≤ p.takeProfit ∨ p.stopLoss ≤ price)))) ∧
    (∀ (risk : ℚ) (strategy : List Candle → List Signal) (marketData : List Candle)
      (s : Backtester.BtState) (i : Nat) (p : Backtester.Position),
      s.position = some p →
      ((Backtester.checkExitConditions p (marketData.getD i default).close
          (marketData.getD i default)).shouldExit = true →
        (Backtester.backtestStep risk strategy marketData s i).position = none ∧
        (Backtester.backtestStep risk strategy marketData s i).trades =
          s.trades ++ [Backtester.mkTrade p (marketData.getD i default).close] ∧
        (Backtester.backtestStep risk strategy marketData s i).capital =
          s.capital + Backtester.calculatePnl p (marketData.getD i default).close) ∧
      ((Backtester.checkExitConditions p (marketData.getD i default).close
          (marketData.getD i default)).shouldExit = false →
        (Backtester.backtestStep risk strategy marketData s i).position = some p ∧
        (Backtester.backtestStep risk strategy marketData s i).trades = s.trades)) ∧
    (∀ (init risk : ℚ) (sqrtFn : ℚ → ℚ) (strategy : List Candle → List Signal)
      (marketData : List Candle) (p : Backtester.Position),
      (Backtester.backtestLoop init risk strategy marketData).position = some p →
      (Backtester.backtest init risk sqrtFn strategy marketData).trades =
        (Backtester.backtestLoop init risk strategy marketData).trades ++
          [Backtester.mkTrade p (marketData.getLast?.getD default).close] ∧
      (Backtester.backtest init risk sqrtFn strategy marketData).finalCapital =
        (Backtester.backtestLoop init risk strategy marketData).capital +
          Backtester.calculatePnl p (marketData.getLast?.getD default).close) := by
  refine ⟨?_, ?_, ?_⟩
  · intro p price c
    unfold Backtester.checkExitConditions
    split_ifs <;> simp_all [not_le]
  · intro risk strategy marketData s i p hopen
    unfold Backtester.backtestStep
    rw [hopen]
    dsimp only
    constructor
    · intro hex
      rw [if_pos hex]
      exact ⟨rfl, rfl, rfl⟩
    · intro hex
      rw [if_neg (by rw [hex]; exact Bool.false_ne_true)]
      exact ⟨rfl, rfl⟩
  · intro init risk sqrtFn strategy marketData p hpos
    unfold Backtester.backtest
    dsimp only
    rw [hpos]
    exact ⟨rfl, rfl⟩

/-- Witness for C7 (amended): a close of 111 above the target triggers the
exit test; bar 31 of `exC7Data` (close 105) does not close the open position;
and on `exC7DataShort` the position left open at loop end is force-closed at
the final bar's closing price. -/
theorem c7_close_based_exit_witness :
    (Backtester.checkExitConditions exC7Position 111 default).shouldExit = true ∧
    (Backtester.backtestStep 0.01 exC7Strategy exC7Data
        ⟨10000, some exC7Position, [], [10000]⟩ 31).position = some exC7Position ∧
    (Backtester.backtest 10000 0.01 id exC7Strategy exC7DataShort).trades =
      (Backtester.backtestLoop 10000 0.01 exC7Strategy exC7DataShort).trades ++
        [Backtester.mkTrade exC7Position (exC7DataShort.getLast?.getD default).close] := by
  obtain ⟨p1, p2, p3⟩ := c7_close_based_exit
  refine ⟨?_, ?_, ?_⟩
  · exact (p1 exC7Position 111 default).mpr
      (Or.inl ⟨rfl, Or.inl (by norm_num [exC7Position])⟩)
  · have h31 : exC7Data.getD 31 default = ⟨31, 100, 120, 99, 105, 0⟩ := by
      simp only [exC7Data, List.getD_eq_getElem?_getD, List.getElem?_map, List.getElem?_range]
      norm_num
    have hfalse : (Backtester.checkExitConditions exC7Position
        (exC7Data.getD 31 default).close (exC7Data.getD 31 default)).shouldExit = false := by
      rw [h31]
      norm_num [Backtester.checkExitConditions, exC7Position]
    exact ((p2 0.01 exC7Strategy exC7Data
      ⟨10000, some exC7Position, [], [10000]⟩ 31 exC7Position rfl).2 hfalse).1
  · have h30 : exC7DataShort.getD 30 default = ⟨30, 100, 100, 100, 100, 0⟩ := by
      simp only [exC7DataShort, List.getD_eq_getElem?_getD, List.getElem?_map,
        List.getElem?_range]
      norm_num
    have hpos : (Backtester.backtestLoop 10000 0.01 exC7Strategy exC7DataShort).position =
        some exC7Position := by
      unfold Backtester.backtestLoop
      have hr : (List.range exC7DataShort.length).drop 30 = [30] := by decide
      rw [hr]
      simp only [List.foldl_cons, List.foldl_nil]
      unfold Backtester.backtestStep
      rw [h30]
      norm_num [exC7Strategy, Backtester.enterTrade, Backtester.calculatePositionSize,
        Backtester.checkExitConditions, exC7Signal, exC7Position]
    exact (p3 10000 0.01 id exC7Strategy exC7DataShort exC7Position hpos).1
